import Mathlib

/-!
Shallow embedding of the terminal-navigation core of the render CLI
(`pkg/tui/stack.go`): the `StackModel` stack of screens, its `Update`
dispatch function, and the header/footer frame renderer.

Screens (`tea.Model`) are polymorphic in the source; here they are an
abstract type parameter together with abstract `screenInit` / `screenUpdate`
operations and an abstract `NewErrorModel` constructor (the error screen is
defined outside the given sources).  The system clipboard is modelled by
explicit state passing, with a flag saying whether writes succeed.
Lipgloss styles are modelled layout-only: colour and bold styles render
text unchanged, margins add blank lines; `lipgloss.Height` counts lines.
-/

namespace Tui

/-- Key types relevant to `StackModel.Update`: the three control keys it
recognises, and an opaque code for every other key. -/
inductive KeyType where
  | ctrlC
  | ctrlD
  | ctrlS
  | other (code : Nat)
  deriving DecidableEq, Repr

/-- Embeds `tea.KeyMsg`: a key type plus the runes it carries. -/
structure KeyMsg where
  type : KeyType
  runes : List Char
  deriving DecidableEq, Repr

/-- Embeds `StackSizeMsg` (stack.go lines 31-35). -/
structure StackSizeMsg where
  Width : Int
  Height : Int
  Top : Int
  deriving DecidableEq, Repr

mutual
/-- Embeds `tea.Msg`: the message classes `StackModel.Update` switches on,
plus an opaque `user` class for all other messages.  `ClearScreenMsg`
carries its follow-up message; `LoadingDataMsg` is itself a command (the
carried load task), so it carries a `Cmd`. -/
inductive Msg where
  | key (k : KeyMsg)
  | clearScreen (next : Msg)
  | loadingData (task : Cmd)
  | doneLoadingData
  | error (errMsg : String)
  | spinnerTick
  | done (message : String)
  | windowSize (width height : Int)
  | stackSize (s : StackSizeMsg)
  | user (code : Nat)

/-- Embeds `tea.Cmd` values produced by the stack: batches, sequences,
quit, println, the spinner tick command, and a command that emits a
message (a Go closure returning a `tea.Msg`). -/
inductive Cmd where
  | none
  | quit
  | batch (cmds : List Cmd)
  | sequence (cmds : List Cmd)
  | println (s : String)
  | tick
  | emit (m : Msg)
end

/-- Shape test used to state that a message is not the Loading-end event. -/
def Msg.isDoneLoadingData : Msg → Bool
  | .doneLoadingData => true
  | _ => false

/-- Minimal model of `bubbles/spinner.Model`: the animation frame. -/
structure Spinner where
  frame : Nat
  deriving DecidableEq, Repr

/-- Embeds `newSpinner` (stack.go lines 56-62): a fresh spinner with the
animation at its initial frame. -/
def newSpinner : Spinner := { frame := 0 }

/-- Modelled from the library: a spinner advances one frame on a tick
message and reschedules the next tick. -/
def Spinner.update (s : Spinner) : Spinner × Cmd :=
  ({ frame := s.frame + 1 }, Cmd.tick)

/-- Embeds `ModelWithCmd` (stack.go lines 25-29). -/
structure ModelWithCmd (Screen : Type) where
  Model : Screen
  Cmd : String
  Breadcrumb : String
  deriving DecidableEq, Repr

/-- Embeds `StackModel` (stack.go lines 17-23).  The Go slice grows at the
tail, so the list's last element is the top of the stack. -/
structure StackModel (Screen : Type) where
  loadingSpinner : Option Spinner
  stack : List (ModelWithCmd Screen)
  width : Int
  height : Int
  deriving DecidableEq, Repr

/-- Embeds `NewStack`. -/
def NewStack (Screen : Type) : StackModel Screen :=
  { loadingSpinner := Option.none, stack := [], width := 0, height := 0 }

/-- Modelled from the source of lipgloss: `lipgloss.Height` is the number
of lines, i.e. the newline count plus one. -/
def lipglossHeight (s : String) : Nat :=
  s.data.countP (fun c => c = '\x0a') + 1

/-- Modelled layout-only: `stackInfoStyle` (foreground colour, bold) leaves
the text content unchanged. -/
def stackInfoStyleRender (s : String) : String := s

/-- Modelled layout-only: `stackHeaderStyle` has `MarginTop(1)` and
`MarginBottom(1)`, adding one blank line above and below. -/
def stackHeaderStyleRender (s : String) : String := "\x0a" ++ s ++ "\x0a"

/-- Modelled from the spec: `renderstyle.CommandKey` (pkg/style is not in
the given sources) is a colour style, layout-neutral, identity on content. -/
def commandKeyRender (s : String) : String := s

/-- Modelled from the spec: `renderstyle.CommandTitle` (pkg/style is not in
the given sources) is a colour style, layout-neutral, identity on content. -/
def commandTitleRender (s : String) : String := s

/-- Clipboard state: the system clipboard's current content, if any. -/
structure Clipboard where
  content : Option String
  deriving DecidableEq, Repr

/-- Modelled from the library: `clipboard.WriteAll` replaces the clipboard
content on success; `clipboardOk` says whether the platform write succeeds.
Returns the new clipboard state and whether the write succeeded. -/
def writeAll (clipboardOk : Bool) (c : Clipboard) (s : String) : Clipboard × Bool :=
  if clipboardOk then ({ content := some s }, true) else (c, false)

section Stack

variable {Screen : Type}
variable (screenInit : Screen → Cmd)
variable (screenUpdate : Screen → Msg → Screen × Cmd)
variable (NewErrorModel : String → Screen)
variable (clipboardOk : Bool)

/-- Embeds `StackModel.Pop` (stack.go lines 69-73): drop the tail entry if
the stack is non-empty, otherwise do nothing. -/
def StackModel.Pop (m : StackModel Screen) : StackModel Screen :=
  if m.stack.length > 0 then { m with stack := m.stack.dropLast } else m

/-- Embeds `StackModel.Init` (stack.go lines 75-81): batch the init
commands of every entry on the stack. -/
def StackModel.Init (m : StackModel Screen) : Cmd :=
  Cmd.batch [m.stack.foldl (fun cmd model => Cmd.batch [cmd, screenInit model.Model]) Cmd.none]

/-- Embeds `StackModel.header` (stack.go lines 176-185): collect the
rendered non-empty breadcrumbs in stack order, join them with the fixed
separator, and apply the header style. -/
def StackModel.header (m : StackModel Screen) : String :=
  stackHeaderStyleRender (String.intercalate " > "
    (m.stack.foldl
      (fun breadCrumbs model =>
        if model.Breadcrumb ≠ "" then breadCrumbs ++ [stackInfoStyleRender model.Breadcrumb]
        else breadCrumbs)
      []))

/-- Embeds the command list built by `StackModel.footer` (stack.go lines
187-201): the quit binding always, the previous-command binding when more
than one entry remains, the copy binding when the top entry's command is
non-empty.  (In Go the top-entry access panics on an empty stack; `footer`
is only ever invoked with a non-empty stack, and the embedding uses the
empty string as the out-of-range default.) -/
def StackModel.footerCommands (m : StackModel Screen) : List String :=
  let quitCommand := commandKeyRender "[Ctrl+C]" ++ " Quit"
  let prevCommand := commandKeyRender "[Ctrl+D]" ++ " Previous command"
  let saveToClipboard := commandKeyRender "[Ctrl+S]" ++ " Copy command to clipboard"
  let commands := [quitCommand]
  let commands := if m.stack.length > 1 then commands ++ [prevCommand] else commands
  let commands :=
    if ((m.stack.getLast?.map fun e => e.Cmd).getD "") ≠ "" then commands ++ [saveToClipboard]
    else commands
  commands

/-- Embeds `StackModel.footer` (stack.go lines 187-204): the rendered
navigation title followed by the space-joined command list. -/
def StackModel.footer (m : StackModel Screen) : String :=
  commandTitleRender "Navigation: " ++ String.intercalate " " m.footerCommands

/-- Embeds `StackModel.StackSizeMsg` (stack.go lines 156-162): the usable
content size, the raw height minus rendered header and footer heights. -/
def StackModel.StackSizeMsg (m : StackModel Screen) : StackSizeMsg :=
  { Width := m.width
    Height := m.height - Int.ofNat (lipglossHeight m.header) - Int.ofNat (lipglossHeight m.footer)
    Top := Int.ofNat (lipglossHeight m.header) }

/-- Embeds `StackModel.Push` (stack.go lines 64-67): append the entry at
the tail and return the batch of the new screen's init command and a
command emitting the recomputed stack-size message. -/
def StackModel.Push (m : StackModel Screen) (model : ModelWithCmd Screen) :
    StackModel Screen × Cmd :=
  let mNew := { m with stack := m.stack ++ [model] }
  (mNew, Cmd.batch [screenInit model.Model, Cmd.emit (Msg.stackSize mNew.StackSizeMsg)])

/-- Embeds stack.go lines 148-153: forward `subMsg` to the topmost
screen's update function, replacing the top entry's model and returning
the screen's command; with no top entry nothing changes and the command
is nil. -/
def StackModel.forward (m : StackModel Screen) (subMsg : Msg) (clip : Clipboard) :
    StackModel Screen × Cmd × Clipboard :=
  match m.stack.getLast? with
  | some top =>
    let updated := screenUpdate top.Model subMsg
    ({ m with stack := m.stack.dropLast ++ [{ top with Model := updated.1 }] },
      updated.2, clip)
  | Option.none => (m, Cmd.none, clip)

/-- Embeds `StackModel.Update` (stack.go lines 83-154), with the system
clipboard passed as explicit state.  Returns the new stack model, the
command handed back to the runtime, and the new clipboard state. -/
def StackModel.Update (m : StackModel Screen) (msg : Msg) (clip : Clipboard) :
    StackModel Screen × Cmd × Clipboard :=
  if m.stack.length = 0 then (m, Cmd.quit, clip)
  else
    match msg with
    | .key k =>
      match k.type with
      | .ctrlC => (m, Cmd.quit, clip)
      | .ctrlD =>
        let mPopped := m.Pop
        if mPopped.stack.length = 0 then (mPopped, Cmd.quit, clip)
        else (mPopped, mPopped.Init screenInit, clip)
      | .ctrlS =>
        match m.stack.getLast? with
        | some top =>
          let written := writeAll clipboardOk clip top.Cmd
          let mAfter :=
            if written.2 then m
            else (m.Push screenInit
              { Model := NewErrorModel "Failed to copy command to clipboard",
                Cmd := "", Breadcrumb := "" }).1
          mAfter.forward screenUpdate msg written.1
        | Option.none => m.forward screenUpdate msg clip
      | .other _ => m.forward screenUpdate msg clip
    | .clearScreen next => ({ m with stack := [] }, Cmd.emit next, clip)
    | .loadingData task =>
      ({ m with loadingSpinner := some newSpinner }, Cmd.batch [Cmd.tick, task], clip)
    | .doneLoadingData => ({ m with loadingSpinner := Option.none }, Cmd.none, clip)
    | .error errMsg =>
      ((m.Push screenInit
          { Model := NewErrorModel errMsg, Cmd := "", Breadcrumb := "" }).1,
        Cmd.none, clip)
    | .spinnerTick =>
      match m.loadingSpinner with
      | some sp =>
        let advanced := sp.update
        ({ m with loadingSpinner := some advanced.1 }, advanced.2, clip)
      | Option.none => m.forward screenUpdate msg clip
    | .done message =>
      let mPopped := m.Pop
      if mPopped.stack.length = 0 then
        (mPopped, Cmd.sequence [Cmd.println message, Cmd.quit], clip)
      else (mPopped, mPopped.Init screenInit, clip)
    | .windowSize w h =>
      let mResized := { m with width := w, height := h }
      mResized.forward screenUpdate (Msg.stackSize mResized.StackSizeMsg) clip
    | .stackSize _ => m.forward screenUpdate msg clip
    | .user _ => m.forward screenUpdate msg clip

/-- Embeds `StackModel.View` (stack.go lines 164-174): the loading overlay
when the indicator is active, nothing on an empty stack, otherwise header,
active screen output, footer.  The centred placement of the overlay is
modelled as the label itself. -/
def StackModel.View (screenView : Screen → String) (m : StackModel Screen) : String :=
  match m.loadingSpinner with
  | some _ => "Loading..."
  | Option.none =>
    match m.stack.getLast? with
    | Option.none => ""
    | some top =>
      m.header ++ "\x0a" ++ screenView top.Model ++ "\x0a" ++ m.footer

end Stack

/-! Concrete instantiation of the screen interface, used by witnesses and
counterexamples: screens are counters whose update increments the state. -/

namespace Ex

/-- Concrete screen init: no command. -/
def sInit : Nat → Cmd := fun _ => Cmd.none

/-- Concrete screen update: increment the state, no command. -/
def sUpd : Nat → Msg → Nat × Cmd := fun n _ => (n + 1, Cmd.none)

/-- Concrete error-screen constructor: the state 99. -/
def errM : String → Nat := fun _ => 99

/-- A one-entry stack whose top has a non-empty replay command. -/
def one : StackModel Nat :=
  { loadingSpinner := Option.none, stack := [⟨5, "cmd", "b"⟩], width := 0, height := 0 }

/-- A one-entry stack whose top has an empty replay command. -/
def oneEmptyCmd : StackModel Nat :=
  { loadingSpinner := Option.none, stack := [⟨5, "", "b"⟩], width := 0, height := 0 }

/-- A two-entry stack mirroring the spec's scenario. -/
def two : StackModel Nat :=
  { loadingSpinner := Option.none,
    stack := [⟨1, "", "Services"⟩, ⟨2, "render deploy svc-1", "Deploy"⟩],
    width := 100, height := 40 }

/-- A one-entry stack with an active loading indicator mid-animation. -/
def spin : StackModel Nat :=
  { loadingSpinner := some ⟨7⟩, stack := [⟨5, "cmd", "b"⟩], width := 0, height := 0 }

end Ex

section Theorems

variable {Screen : Type}
variable (screenInit : Screen → Cmd)
variable (screenUpdate : Screen → Msg → Screen × Cmd)
variable (NewErrorModel : String → Screen)
variable (clipboardOk : Bool)

/-- C1: dispatching a Done event on a stack of depth N ≥ 1 pops exactly one
entry (the stack becomes its `dropLast`); if N = 1 the returned command
prints the Done event's final message and then quits, and if N > 1 the
returned command is the re-initialization command of the remaining stack
(whose top is the new top entry) and is not the quit command. -/
theorem c1_done_pops_one (m : StackModel Screen) (s : String) (clip : Clipboard)
    (h : m.stack ≠ []) :
    (StackModel.Update screenInit screenUpdate NewErrorModel clipboardOk
        m (Msg.done s) clip).1.stack = m.stack.dropLast ∧
    (m.stack.length = 1 →
      (StackModel.Update screenInit screenUpdate NewErrorModel clipboardOk
          m (Msg.done s) clip).2.1 = Cmd.sequence [Cmd.println s, Cmd.quit]) ∧
    (1 < m.stack.length →
      (StackModel.Update screenInit screenUpdate NewErrorModel clipboardOk
          m (Msg.done s) clip).2.1 = (m.Pop).Init screenInit ∧
      (StackModel.Update screenInit screenUpdate NewErrorModel clipboardOk
          m (Msg.done s) clip).2.1 ≠ Cmd.quit) := by
  have h0 : ¬ m.stack.length = 0 := by
    simpa [List.length_eq_zero] using h
  have hpos : 0 < m.stack.length := Nat.pos_of_ne_zero h0
  have hdrop : m.Pop.stack = m.stack.dropLast := by
    simp [StackModel.Pop, hpos]
  have hlen : m.Pop.stack.length = m.stack.length - 1 := by
    simp [hdrop, List.length_dropLast]
  refine ⟨?_, ?_, ?_⟩
  · by_cases h1 : m.stack.length - 1 = 0 <;>
      simp [StackModel.Update, h0, h1, hdrop]
  · intro hone
    have h1 : m.stack.length - 1 = 0 := by omega
    simp [StackModel.Update, h0, hlen, h1]
  · intro hgt
    have h1 : ¬ m.stack.length - 1 = 0 := by omega
    refine ⟨by simp [StackModel.Update, h0, hlen, h1], ?_⟩
    simp [StackModel.Update, h0, hlen, h1, StackModel.Init]

/-- C1 witness: on a concrete two-entry stack, Done pops to depth 1 and the
session continues with the re-initialization command. -/
theorem c1_witness :
    (StackModel.Update Ex.sInit Ex.sUpd Ex.errM true Ex.two (Msg.done "bye")
        ⟨Option.none⟩).1.stack = Ex.two.stack.dropLast ∧
    (1 < Ex.two.stack.length →
      (StackModel.Update Ex.sInit Ex.sUpd Ex.errM true Ex.two (Msg.done "bye")
          ⟨Option.none⟩).2.1 = (Ex.two.Pop).Init Ex.sInit ∧
      (StackModel.Update Ex.sInit Ex.sUpd Ex.errM true Ex.two (Msg.done "bye")
          ⟨Option.none⟩).2.1 ≠ Cmd.quit) := by
  have h := c1_done_pops_one Ex.sInit Ex.sUpd Ex.errM true Ex.two "bye" ⟨Option.none⟩
    (by simp [Ex.two])
  exact ⟨h.1, h.2.2⟩

/-- C2 counterexample: dispatching an event on an empty stack returns the
session-terminating quit command, contradicting the claim that a dispatch
with no top entry never terminates the session. -/
theorem c2_counterexample :
    StackModel.Update Ex.sInit Ex.sUpd Ex.errM true (NewStack Nat) (Msg.user 0)
        ⟨Option.none⟩ = (NewStack Nat, Cmd.quit, ⟨Option.none⟩) := rfl

/-- C2 amended: popping an empty stack leaves it empty (a safe no-op), and
dispatching any event on a stack with no top entry leaves the model
unchanged and returns the quit command, terminating the session. -/
theorem c2_amended (m : StackModel Screen) (msg : Msg) (clip : Clipboard)
    (h : m.stack = []) :
    m.Pop = m ∧
    StackModel.Update screenInit screenUpdate NewErrorModel clipboardOk m msg clip
      = (m, Cmd.quit, clip) := by
  have h0 : m.stack.length = 0 := by simp [h]
  constructor
  · simp [StackModel.Pop, h0]
  · simp [StackModel.Update, h0]

/-- C2 witness: on the concrete empty stack, pop is a no-op and a dispatch
returns the unchanged model with the quit command. -/
theorem c2_witness :
    (NewStack Nat).Pop = NewStack Nat ∧
    StackModel.Update Ex.sInit Ex.sUpd Ex.errM true (NewStack Nat) (Msg.user 1)
        ⟨Option.none⟩ = (NewStack Nat, Cmd.quit, ⟨Option.none⟩) :=
  c2_amended Ex.sInit Ex.sUpd Ex.errM true (NewStack Nat) (Msg.user 1)
    ⟨Option.none⟩ rfl

/-- C4: dispatching an Error event on a non-empty stack pushes exactly one
error-display entry carrying the error's message: the new stack is the old
stack with the error entry appended (so depth grows by one and every
pre-existing entry keeps its position), the loading indicator and recorded
size are unchanged, the returned command is nil (the session does not
terminate), and the clipboard is untouched. -/
theorem c4_error_pushes_one (m : StackModel Screen) (e : String) (clip : Clipboard)
    (h : m.stack ≠ []) :
    StackModel.Update screenInit screenUpdate NewErrorModel clipboardOk
        m (Msg.error e) clip
      = ({ m with stack :=
            m.stack ++ [⟨NewErrorModel e, "", ""⟩] }, Cmd.none, clip) ∧
    (StackModel.Update screenInit screenUpdate NewErrorModel clipboardOk
        m (Msg.error e) clip).1.stack.length = m.stack.length + 1 ∧
    (StackModel.Update screenInit screenUpdate NewErrorModel clipboardOk
        m (Msg.error e) clip).1.stack.take m.stack.length = m.stack := by
  have h0 : ¬ m.stack.length = 0 := by
    simpa [List.length_eq_zero] using h
  refine ⟨?_, ?_, ?_⟩ <;>
    simp [StackModel.Update, StackModel.Push, h0]

/-- C4 witness: pushing an error entry onto the concrete one-entry stack. -/
theorem c4_witness :
    StackModel.Update Ex.sInit Ex.sUpd Ex.errM true Ex.one (Msg.error "boom")
        ⟨Option.none⟩
      = ({ Ex.one with stack := Ex.one.stack ++ [⟨Ex.errM "boom", "", ""⟩] },
          Cmd.none, ⟨Option.none⟩) ∧
    (StackModel.Update Ex.sInit Ex.sUpd Ex.errM true Ex.one (Msg.error "boom")
        ⟨Option.none⟩).1.stack.length = Ex.one.stack.length + 1 ∧
    (StackModel.Update Ex.sInit Ex.sUpd Ex.errM true Ex.one (Msg.error "boom")
        ⟨Option.none⟩).1.stack.take Ex.one.stack.length = Ex.one.stack := by
  exact c4_error_pushes_one Ex.sInit Ex.sUpd Ex.errM true Ex.one "boom"
    ⟨Option.none⟩ (by simp [Ex.one])

/-- C10: on a non-empty stack, a Loading-start event replaces whatever
loading indicator was present (even an active one) with a fresh spinner at
its initial animation frame and returns the batch of the spinner tick and
the carried task, while a Loading-end event clears the indicator and
returns nil; neither event changes the stack's entries, depth, recorded
size, or the clipboard. -/
theorem c10_loading_events (m : StackModel Screen) (task : Cmd) (clip : Clipboard)
    (h : m.stack ≠ []) :
    StackModel.Update screenInit screenUpdate NewErrorModel clipboardOk
        m (Msg.loadingData task) clip
      = ({ m with loadingSpinner := some newSpinner },
          Cmd.batch [Cmd.tick, task], clip) ∧
    StackModel.Update screenInit screenUpdate NewErrorModel clipboardOk
        m Msg.doneLoadingData clip
      = ({ m with loadingSpinner := Option.none }, Cmd.none, clip) := by
  have h0 : ¬ m.stack.length = 0 := by
    simpa [List.length_eq_zero] using h
  constructor <;> simp [StackModel.Update, h0]

/-- C10 witness: on the concrete stack whose indicator is mid-animation at
frame 7, Loading-start installs the fresh frame-0 spinner and Loading-end
clears it, leaving the single stack entry intact. -/
theorem c10_witness :
    StackModel.Update Ex.sInit Ex.sUpd Ex.errM true Ex.spin
        (Msg.loadingData Cmd.tick) ⟨Option.none⟩
      = ({ Ex.spin with loadingSpinner := some newSpinner },
          Cmd.batch [Cmd.tick, Cmd.tick], ⟨Option.none⟩) ∧
    StackModel.Update Ex.sInit Ex.sUpd Ex.errM true Ex.spin
        Msg.doneLoadingData ⟨Option.none⟩
      = ({ Ex.spin with loadingSpinner := Option.none }, Cmd.none, ⟨Option.none⟩) :=
  c10_loading_events Ex.sInit Ex.sUpd Ex.errM true Ex.spin Cmd.tick
    ⟨Option.none⟩ (by simp [Ex.spin])

/-- Forwarding a message to the top screen never touches the loading
indicator. -/
theorem forward_spinner (m : StackModel Screen) (subMsg : Msg) (clip : Clipboard) :
    ((StackModel.forward screenUpdate m subMsg clip).1).loadingSpinner
      = m.loadingSpinner := by
  unfold StackModel.forward
  cases h : m.stack.getLast? <;> simp

/-- Pushing an entry never touches the loading indicator. -/
theorem push_spinner (m : StackModel Screen) (e : ModelWithCmd Screen) :
    ((StackModel.Push screenInit m e).1).loadingSpinner = m.loadingSpinner := by
  simp [StackModel.Push]

/-- Popping an entry never touches the loading indicator. -/
theorem pop_spinner (m : StackModel Screen) :
    (m.Pop).loadingSpinner = m.loadingSpinner := by
  unfold StackModel.Pop
  split <;> simp

/-- C3: the Loading Indicator is cleared only by the Loading-end event —
dispatching any other message (a Done event included) while the indicator
is active leaves an indicator active.  At most one indicator can exist at
any instant since the model carries a single optional spinner. -/
theorem c3_indicator_cleared_only_by_loading_end (m : StackModel Screen) (msg : Msg)
    (clip : Clipboard) (hs : m.loadingSpinner.isSome = true)
    (hm : msg.isDoneLoadingData = false) :
    ((StackModel.Update screenInit screenUpdate NewErrorModel clipboardOk
        m msg clip).1).loadingSpinner.isSome = true := by
  by_cases h0 : m.stack.length = 0
  · simp [StackModel.Update, h0, hs]
  · cases msg with
    | key k =>
      cases hk : k.type with
      | ctrlC => simp [StackModel.Update, h0, hk, hs]
      | ctrlD =>
        by_cases h1 : m.Pop.stack.length = 0 <;>
          simp [StackModel.Update, h0, hk, h1, pop_spinner, hs]
      | ctrlS =>
        cases hl : m.stack.getLast? with
        | none => simp [StackModel.Update, h0, hk, hl, forward_spinner, hs]
        | some top =>
          cases hc : clipboardOk <;>
            simp [StackModel.Update, h0, hk, hl, hc, writeAll,
              forward_spinner, push_spinner, hs]
      | other c => simp [StackModel.Update, h0, hk, forward_spinner, hs]
    | clearScreen next => simp [StackModel.Update, h0, hs]
    | loadingData task => simp [StackModel.Update, h0]
    | doneLoadingData => simp [Msg.isDoneLoadingData] at hm
    | error e => simp [StackModel.Update, h0, push_spinner, hs]
    | spinnerTick =>
      cases hsp : m.loadingSpinner with
      | none => simp [hsp] at hs
      | some sp => simp [StackModel.Update, h0, hsp]
    | done message =>
      by_cases h1 : m.Pop.stack.length = 0 <;>
        simp [StackModel.Update, h0, h1, pop_spinner, hs]
    | windowSize w hh => simp [StackModel.Update, h0, forward_spinner, hs]
    | stackSize s => simp [StackModel.Update, h0, forward_spinner, hs]
    | user c => simp [StackModel.Update, h0, forward_spinner, hs]

/-- C3 witness: a Done event arriving while the concrete stack's indicator
is active leaves the indicator active. -/
theorem c3_witness :
    ((StackModel.Update Ex.sInit Ex.sUpd Ex.errM true Ex.spin (Msg.done "x")
        ⟨Option.none⟩).1).loadingSpinner.isSome = true :=
  c3_indicator_cleared_only_by_loading_end Ex.sInit Ex.sUpd Ex.errM true Ex.spin
    (Msg.done "x") ⟨Option.none⟩ rfl rfl

/-- C5 counterexample: the copy-command key (Ctrl+S) IS forwarded to the
active screen's update function, contrary to the claim — on a concrete
one-entry stack whose screen increments its counter on every update, the
top screen's state changes from 5 to 6 when Ctrl+S is dispatched. -/
theorem c5_counterexample :
    (StackModel.Update Ex.sInit Ex.sUpd Ex.errM true Ex.one
        (Msg.key ⟨KeyType.ctrlS, []⟩) ⟨Option.none⟩).1.stack = [⟨6, "cmd", "b"⟩] ∧
    (StackModel.Update Ex.sInit Ex.sUpd Ex.errM true Ex.one
        (Msg.key ⟨KeyType.ctrlS, []⟩) ⟨Option.none⟩).1.stack ≠ Ex.one.stack := by
  constructor
  · rfl
  · decide

/-- C5 amended: of the fixed control keys, quit (Ctrl+C) and interrupt/pop
(Ctrl+D) are handled globally and not forwarded to the active screen,
while the copy-command key (Ctrl+S) is handled globally and then also
forwarded to the active screen; every other key event is forwarded
verbatim (the unmodified key message) to the active screen. -/
theorem c5_amended_key_routing (m : StackModel Screen) (k : KeyMsg) (clip : Clipboard)
    (top : ModelWithCmd Screen) (h : m.stack.getLast? = some top) :
    (k.type = KeyType.ctrlC →
      StackModel.Update screenInit screenUpdate NewErrorModel clipboardOk
        m (Msg.key k) clip = (m, Cmd.quit, clip)) ∧
    (k.type = KeyType.ctrlD →
      StackModel.Update screenInit screenUpdate NewErrorModel clipboardOk
          m (Msg.key k) clip
        = (if m.Pop.stack.length = 0 then (m.Pop, Cmd.quit, clip)
           else (m.Pop, m.Pop.Init screenInit, clip))) ∧
    (∀ c, k.type = KeyType.other c →
      StackModel.Update screenInit screenUpdate NewErrorModel clipboardOk
          m (Msg.key k) clip
        = StackModel.forward screenUpdate m (Msg.key k) clip) ∧
    (k.type = KeyType.ctrlS →
      StackModel.Update screenInit screenUpdate NewErrorModel clipboardOk
          m (Msg.key k) clip
        = StackModel.forward screenUpdate
            (if (writeAll clipboardOk clip top.Cmd).2 then m
             else (StackModel.Push screenInit m
               ⟨NewErrorModel "Failed to copy command to clipboard", "", ""⟩).1)
            (Msg.key k) (writeAll clipboardOk clip top.Cmd).1) := by
  have h0 : ¬ m.stack.length = 0 := by
    intro hlen
    rw [List.length_eq_zero] at hlen
    simp [hlen] at h
  refine ⟨?_, ?_, ?_, ?_⟩
  · intro hk; simp [StackModel.Update, h0, hk]
  · intro hk
    by_cases h1 : m.Pop.stack.length = 0 <;>
      simp [StackModel.Update, h0, hk, h1]
  · intro c hk; simp [StackModel.Update, h0, hk]
  · intro hk
    cases hw : (writeAll clipboardOk clip top.Cmd).2 <;>
      simp [StackModel.Update, h0, hk, h, hw]

/-- C5 witness: on the concrete one-entry stack, Ctrl+C quits without
forwarding and an ordinary key is forwarded verbatim. -/
theorem c5_witness :
    StackModel.Update Ex.sInit Ex.sUpd Ex.errM true Ex.one
        (Msg.key ⟨KeyType.ctrlC, []⟩) ⟨Option.none⟩
      = (Ex.one, Cmd.quit, ⟨Option.none⟩) ∧
    StackModel.Update Ex.sInit Ex.sUpd Ex.errM true Ex.one
        (Msg.key ⟨KeyType.other 13, []⟩) ⟨Option.none⟩
      = StackModel.forward Ex.sUpd Ex.one (Msg.key ⟨KeyType.other 13, []⟩)
          ⟨Option.none⟩ := by
  constructor
  · exact (c5_amended_key_routing Ex.sInit Ex.sUpd Ex.errM true Ex.one
      ⟨KeyType.ctrlC, []⟩ ⟨Option.none⟩ ⟨5, "cmd", "b"⟩ rfl).1 rfl
  · exact ((c5_amended_key_routing Ex.sInit Ex.sUpd Ex.errM true Ex.one
      ⟨KeyType.other 13, []⟩ ⟨Option.none⟩ ⟨5, "cmd", "b"⟩ rfl).2.2.1) 13 rfl

/-- C6 counterexample: the source copies the top entry's replay command to
the clipboard unconditionally — on a concrete stack whose top entry has an
EMPTY replay command, dispatching Ctrl+S still performs a clipboard write
(the clipboard goes from empty to holding the empty string), contradicting
the claim that a copy happens only if the replay command is non-empty. -/
theorem c6_counterexample :
    Ex.oneEmptyCmd.stack.getLast? = some ⟨5, "", "b"⟩ ∧
    (StackModel.Update Ex.sInit Ex.sUpd Ex.errM true Ex.oneEmptyCmd
        (Msg.key ⟨KeyType.ctrlS, []⟩) ⟨Option.none⟩).2.2 = ⟨some ""⟩ :=
  ⟨rfl, rfl⟩

/-- C6 amended: dispatching the copy-command key on a non-empty stack
writes the top entry's replay command to the clipboard unconditionally
(even when it is empty), inspecting only the current top entry.  On write
success the clipboard holds exactly the top entry's command and the key is
forwarded to the unchanged stack.  On write failure the clipboard is
untouched, an error screen carrying the clipboard-failure message is
pushed above all pre-existing entries (which keep their positions), the
key is then forwarded to that error screen, and the dispatch itself
returns the screen's own command rather than a quit. -/
theorem c6_amended_copy_key (m : StackModel Screen) (top : ModelWithCmd Screen)
    (clip : Clipboard) (h : m.stack.getLast? = some top)
    (k : KeyMsg) (hk : k.type = KeyType.ctrlS) :
    (clipboardOk = true →
      StackModel.Update screenInit screenUpdate NewErrorModel clipboardOk
          m (Msg.key k) clip
        = ({ m with stack := m.stack.dropLast ++
              [{ top with Model := (screenUpdate top.Model (Msg.key k)).1 }] },
            (screenUpdate top.Model (Msg.key k)).2, ⟨some top.Cmd⟩)) ∧
    (clipboardOk = false →
      StackModel.Update screenInit screenUpdate NewErrorModel clipboardOk
          m (Msg.key k) clip
        = ({ m with stack := m.stack ++
              [⟨(screenUpdate
                    (NewErrorModel "Failed to copy command to clipboard")
                    (Msg.key k)).1, "", ""⟩] },
            (screenUpdate
                (NewErrorModel "Failed to copy command to clipboard")
                (Msg.key k)).2, clip)) := by
  have h0 : ¬ m.stack.length = 0 := by
    intro hlen
    rw [List.length_eq_zero] at hlen
    simp [hlen] at h
  constructor
  · intro hc
    simp [StackModel.Update, h0, hk, h, hc, writeAll, StackModel.forward]
  · intro hc
    simp [StackModel.Update, h0, hk, h, hc, writeAll, StackModel.Push,
      StackModel.forward, List.getLast?_concat]

/-- C6 witness: on the concrete one-entry stack with a failing clipboard,
Ctrl+S pushes the error screen above the untouched original entry, forwards
the key to it, and leaves the clipboard unchanged. -/
theorem c6_witness :
    StackModel.Update Ex.sInit Ex.sUpd Ex.errM false Ex.one
        (Msg.key ⟨KeyType.ctrlS, []⟩) ⟨Option.none⟩
      = ({ Ex.one with stack := Ex.one.stack ++
            [⟨(Ex.sUpd (Ex.errM "Failed to copy command to clipboard")
                  (Msg.key ⟨KeyType.ctrlS, []⟩)).1, "", ""⟩] },
          (Ex.sUpd (Ex.errM "Failed to copy command to clipboard")
              (Msg.key ⟨KeyType.ctrlS, []⟩)).2, ⟨Option.none⟩) :=
  (c6_amended_copy_key Ex.sInit Ex.sUpd Ex.errM false Ex.one ⟨5, "cmd", "b"⟩
    ⟨Option.none⟩ rfl ⟨KeyType.ctrlS, []⟩ rfl).2 rfl

/-- The header reads only the stack, never the recorded dimensions. -/
theorem header_ignores_size (m : StackModel Screen) (w h : Int) :
    ({ m with width := w, height := h } : StackModel Screen).header = m.header := rfl

/-- The footer reads only the stack, never the recorded dimensions. -/
theorem footer_ignores_size (m : StackModel Screen) (w h : Int) :
    ({ m with width := w, height := h } : StackModel Screen).footer = m.footer := rfl

/-- C7: a resize event records the new width and height and forwards to the
active screen the derived stack-size message — not the raw resize — whose
height is the raw height minus the rendered header height minus the
rendered footer height (so with header height 3 and footer height 2, a
40-row terminal yields a forwarded height of 40 − 3 − 2 = 35). -/
theorem c7_resize_forwards_derived_size (m : StackModel Screen) (w hgt : Int)
    (clip : Clipboard) (top : ModelWithCmd Screen)
    (htop : m.stack.getLast? = some top) :
    StackModel.Update screenInit screenUpdate NewErrorModel clipboardOk
        m (Msg.windowSize w hgt) clip
      = ({ m with
            width := w
            height := hgt
            stack := m.stack.dropLast ++
              [{ top with Model := (screenUpdate top.Model (Msg.stackSize
                  ⟨w, hgt - Int.ofNat (lipglossHeight m.header)
                        - Int.ofNat (lipglossHeight m.footer),
                    Int.ofNat (lipglossHeight m.header)⟩)).1 }] },
          (screenUpdate top.Model (Msg.stackSize
              ⟨w, hgt - Int.ofNat (lipglossHeight m.header)
                    - Int.ofNat (lipglossHeight m.footer),
                Int.ofNat (lipglossHeight m.header)⟩)).2, clip) := by
  have h0 : ¬ m.stack.length = 0 := by
    intro hlen
    rw [List.length_eq_zero] at hlen
    simp [hlen] at htop
  simp [StackModel.Update, h0, StackModel.forward, StackModel.StackSizeMsg,
    header_ignores_size, footer_ignores_size, htop]

/-- C7 witness: on the concrete two-entry stack (header renders at height 3,
footer at height 1 in this layout model), a 100 × 40 resize forwards a
stack-size message of height 40 − 3 − 1 = 36 to the active screen. -/
theorem c7_witness :
    StackModel.Update Ex.sInit Ex.sUpd Ex.errM true Ex.two
        (Msg.windowSize 100 40) ⟨Option.none⟩
      = ({ Ex.two with
            width := 100
            height := 40
            stack := Ex.two.stack.dropLast ++
              [{ (⟨2, "render deploy svc-1", "Deploy"⟩ : ModelWithCmd Nat) with
                  Model := (Ex.sUpd 2 (Msg.stackSize ⟨100, 36, 3⟩)).1 }] },
          (Ex.sUpd 2 (Msg.stackSize ⟨100, 36, 3⟩)).2, ⟨Option.none⟩) := by
  have h := c7_resize_forwards_derived_size Ex.sInit Ex.sUpd Ex.errM true Ex.two
    100 40 ⟨Option.none⟩ ⟨2, "render deploy svc-1", "Deploy"⟩ rfl
  simpa using h

/-- The breadcrumb fold collects, onto the accumulator, exactly the
non-empty breadcrumbs in stack order. -/
theorem header_breadcrumbs_foldl (l : List (ModelWithCmd Screen)) (acc : List String) :
    l.foldl
        (fun breadCrumbs model =>
          if model.Breadcrumb ≠ "" then breadCrumbs ++ [stackInfoStyleRender model.Breadcrumb]
          else breadCrumbs)
        acc
      = acc ++ (l.map (fun e => e.Breadcrumb)).filter (fun b => b != "") := by
  induction l generalizing acc with
  | nil => simp
  | cons e t ih =>
    rw [List.foldl_cons, List.map_cons, List.filter_cons]
    by_cases hb : e.Breadcrumb = ""
    · rw [if_neg (by simp [hb]), ih]
      simp [hb]
    · rw [if_pos hb, ih]
      simp [hb, stackInfoStyleRender]

/-- C8: the rendered header is the non-empty breadcrumb fields of the
entries, in order from bottom to top of the stack, joined by the fixed
separator (wrapped in the header style's one-line top and bottom margins);
an entry whose breadcrumb is empty contributes no fragment and no
separator slot — removing it leaves the header unchanged. -/
theorem c8_header_breadcrumbs (m : StackModel Screen)
    (l1 l2 : List (ModelWithCmd Screen)) (e : ModelWithCmd Screen)
    (he : e.Breadcrumb = "") :
    m.header = "\x0a" ++ String.intercalate " > "
        ((m.stack.map (fun x => x.Breadcrumb)).filter (fun b => b != "")) ++ "\x0a" ∧
    StackModel.header ({ m with stack := l1 ++ e :: l2 } : StackModel Screen)
      = StackModel.header ({ m with stack := l1 ++ l2 } : StackModel Screen) := by
  constructor
  · unfold StackModel.header
    rw [header_breadcrumbs_foldl]
    simp [stackHeaderStyleRender]
  · unfold StackModel.header
    rw [header_breadcrumbs_foldl, header_breadcrumbs_foldl]
    simp [he]

/-- C8 witness: a concrete three-entry stack whose middle entry has an
empty breadcrumb renders the two non-empty breadcrumbs joined by the
separator, and dropping the empty-breadcrumb entry leaves the header
unchanged. -/
theorem c8_witness :
    (⟨Option.none, [⟨1, "", "Services"⟩, ⟨2, "", ""⟩, ⟨3, "", "Deploy"⟩], 0, 0⟩ :
        StackModel Nat).header
      = "\x0a" ++ String.intercalate " > "
          (((⟨Option.none, [⟨1, "", "Services"⟩, ⟨2, "", ""⟩, ⟨3, "", "Deploy"⟩], 0, 0⟩ :
              StackModel Nat).stack.map (fun x => x.Breadcrumb)).filter
            (fun b => b != "")) ++ "\x0a" ∧
    StackModel.header ({ (⟨Option.none, [], 0, 0⟩ : StackModel Nat) with
        stack := [⟨1, "", "Services"⟩] ++ (⟨2, "", ""⟩ : ModelWithCmd Nat) :: [⟨3, "", "Deploy"⟩] })
      = StackModel.header ({ (⟨Option.none, [], 0, 0⟩ : StackModel Nat) with
          stack := [⟨1, "", "Services"⟩] ++ [⟨3, "", "Deploy"⟩] }) :=
  c8_header_breadcrumbs
    (⟨Option.none, [⟨1, "", "Services"⟩, ⟨2, "", ""⟩, ⟨3, "", "Deploy"⟩], 0, 0⟩ :
      StackModel Nat)
    [⟨1, "", "Services"⟩] [⟨3, "", "Deploy"⟩] ⟨2, "", ""⟩ rfl

/-- C9: on a non-empty stack the footer's command list always contains the
quit binding, contains the previous-command binding exactly when the stack
depth exceeds one, and contains the copy-command binding exactly when the
top entry's replay command is non-empty. -/
theorem c9_footer_bindings (m : StackModel Screen) (top : ModelWithCmd Screen)
    (h : m.stack.getLast? = some top) :
    "[Ctrl+C] Quit" ∈ m.footerCommands ∧
    ("[Ctrl+D] Previous command" ∈ m.footerCommands ↔ 1 < m.stack.length) ∧
    ("[Ctrl+S] Copy command to clipboard" ∈ m.footerCommands ↔ top.Cmd ≠ "") := by
  have hget : (m.stack.getLast?.map fun e => e.Cmd).getD "" = top.Cmd := by
    simp [h]
  by_cases h1 : 1 < m.stack.length <;> by_cases h2 : top.Cmd = "" <;>
    simp [StackModel.footerCommands, commandKeyRender, hget, h1, h2]

/-- C9 witness: the concrete two-entry stack (top replay command non-empty)
shows all three bindings. -/
theorem c9_witness :
    "[Ctrl+C] Quit" ∈ Ex.two.footerCommands ∧
    ("[Ctrl+D] Previous command" ∈ Ex.two.footerCommands ↔ 1 < Ex.two.stack.length) ∧
    ("[Ctrl+S] Copy command to clipboard" ∈ Ex.two.footerCommands ↔
      ("render deploy svc-1" : String) ≠ "") :=
  c9_footer_bindings Ex.two ⟨2, "render deploy svc-1", "Deploy"⟩ rfl

end Theorems

end Tui
